import Mathlib

/-!
Shallow embedding of the OCR-API repository's job pipeline.

The repository contains two Express servers:

* an unnamed server (src/unnamed/part_000) exposing the asynchronous job API
  backed by a sqlite table `ocr_jobs` (POST /api/ocr/upload,
  GET /api/ocr/status/:id, GET /api/ocr/result/:id), and
* src/index.js exposing synchronous endpoints, of which the /pdf handler
  implements the text-layer-first PDF strategy.

Collaborator calls (tesseract OCR, pdf-img-convert rasterization, pdf-parse
text-layer extraction, LLM summarization) are modelled as oracle inputs: the
value or error each call would produce is a parameter of the embedded
function, and the embedded control flow mirrors the source.
-/

namespace OcrApi

/-- Job status strings stored in the `status` column of the `ocr_jobs` table.
The `pending` value appears in the spec's state machine; it is part of the
status vocabulary even though the upload handler of part_000 inserts rows
directly with `processing`. -/
inductive Status where
  | pending
  | processing
  | completed
  | failed
deriving DecidableEq

/-- The observable payload of one `performOCR` call (tesseract `data`):
the recognized text. Other metadata fields of `data` are opaque collaborator
output and are not modelled. -/
structure OcrData where
  text : String
deriving DecidableEq

/-- One element of the `result_json` array stored for a job.
The PDF branch of part_000 pushes objects of the form
`page: i+1` spread with the OCR data, so `page` is present;
the image branch stores the raw OCR data with no `page` field,
modelled as `page = none`. -/
structure PageEntry where
  page : Option Nat
  text : String
deriving DecidableEq

/-- A row of the `ocr_jobs` sqlite table (part_000 lines 40-51).
`result_text` and `result_json` are NULL (`none`) until the completed
transition writes them. Timestamps are modelled as abstract Nat instants. -/
structure JobRecord where
  id : String
  filename : String
  status : Status
  language : String
  result_text : Option String
  result_json : Option (List PageEntry)
  createdAt : Nat
  updatedAt : Nat
deriving DecidableEq

/-- The `ocr_jobs` table: a list of rows; `id` is the primary key, and
lookups return the first row with the requested id. -/
abbrev Store := List JobRecord

/-- SELECT ... FROM ocr_jobs WHERE id = ? (first matching row). -/
def findJob : Store → String → Option JobRecord
  | [], _ => none
  | r :: rs, i => if r.id = i then some r else findJob rs i

/-- UPDATE ocr_jobs SET ... WHERE id = ?: patch every row whose id matches. -/
def updateJob : Store → String → (JobRecord → JobRecord) → Store
  | [], _, _ => []
  | r :: rs, i, f => (if r.id = i then f r else r) :: updateJob rs i f

/-- Suffix of a character list starting at its last dot, if any. -/
def extSuffix : List Char → Option (List Char)
  | [] => none
  | c :: rest =>
    match extSuffix rest with
    | some e => some e
    | none => if c = '.' then some (c :: rest) else none

/-- path.extname: the substring from the last dot on, empty when there is no
dot or when the only dot starts the name (as for dotfiles). -/
def extname (s : String) : String :=
  match extSuffix s.data with
  | none => ""
  | some e => if e.length = s.data.length then "" else String.mk e

/-- path.extname(originalname).toLowerCase() as computed at part_000 line 72. -/
def extnameLower (s : String) : String :=
  String.mk ((extname s).data.map Char.toLower)

/-- The uploaded file as multer presents it to the handler. -/
structure FileInfo where
  originalname : String
  path : String
deriving DecidableEq

/-- The request seen by POST /api/ocr/upload: the optional multipart file and
the optional `language` body field. -/
structure UploadReq where
  file : Option FileInfo
  language : Option String
deriving DecidableEq

/-- The synchronous HTTP reply of POST /api/ocr/upload:
400 with an error body, or 202 with the jobId and the status string. -/
inductive SubmitResp where
  | badRequest (error : String)
  | accepted (jobId : String) (status : Status)
deriving DecidableEq

/-- The row INSERTed by the upload handler (part_000 lines 74-77):
status `processing`, language defaulted to `eng`, result columns NULL. -/
def subRec (req : UploadReq) (f : FileInfo) (jobId : String) (now : Nat) : JobRecord :=
  { id := jobId
    filename := f.originalname
    status := .processing
    language := req.language.getD "eng"
    result_text := none
    result_json := none
    createdAt := now
    updatedAt := now }

/-- The synchronous part of POST /api/ocr/upload (part_000 lines 63-79):
reject with 400 when no file was uploaded, otherwise insert the job row and
reply 202 with the jobId and the `processing` status. -/
def submit (store : Store) (req : UploadReq) (jobId : String) (now : Nat) :
    Store × SubmitResp :=
  match req.file with
  | none => (store, .badRequest "No file uploaded")
  | some f => (subRec req f jobId now :: store, .accepted jobId .processing)

/-- Oracle for the collaborator calls one background run would make:
`textLayer` is what pdf-parse would extract from the document (part_000 never
asks for it; it is carried so that independence from it can be stated),
`pdfConvert` is the outcome of pdfImgConvert.convert together with the outcome
of performOCR on each rendered page, and `imageOcr` is the outcome of
performOCR on the uploaded file itself. -/
structure Env where
  textLayer : String
  pdfConvert : Except String (List (Except String OcrData))
  imageOcr : Except String OcrData

/-- Temp file path `uploads/temp_$jobId_$i.png` written for rendered page i. -/
def tempName (jobId : String) (i : Nat) : String :=
  "uploads/temp_" ++ jobId ++ "_" ++ toString i ++ ".png"

/-- Accumulator of the per-page PDF loop: the concatenated text, the pushed
result entries, and (for the resource accounting of the spec) the temp files
written so far and the temp files unlinked so far. -/
structure LoopState where
  resultText : String
  entries : List PageEntry
  created : List String
  deleted : List String

/-- Loop state before the first iteration. -/
def loopStart : LoopState := { resultText := "", entries := [], created := [], deleted := [] }

/-- The per-page loop of the PDF branch (part_000 lines 89-96): for page i,
write the temp image, OCR it, append `text + "\n\n"` to the running text,
push the entry with `page = i+1`, and unlink the temp image. A failing OCR
call throws out of the loop: the iteration stops at that page, after the temp
file was written but before it was unlinked. -/
def pdfLoop (jobId : String) :
    List (Except String OcrData) → Nat → LoopState → LoopState × Option String
  | [], _, st => (st, none)
  | pg :: rest, i, st =>
    let t := tempName jobId i
    let st1 : LoopState := { st with created := st.created ++ [t] }
    match pg with
    | .error e => (st1, some e)
    | .ok d =>
      pdfLoop jobId rest (i + 1)
        { st1 with
          resultText := st1.resultText ++ d.text ++ "\n\n"
          entries := st1.entries ++ [{ page := some (i + 1), text := d.text }]
          deleted := st1.deleted ++ [t] }

/-- The terminal write the background task performs: the completed UPDATE with
its result columns, or the failed UPDATE (which carries no message). -/
inductive BgOutcome where
  | completed (resultText : String) (resultJson : List PageEntry)
  | failed (msg : String)
deriving DecidableEq

/-- Status written by the terminal UPDATE of a background outcome. -/
def statusOf : BgOutcome → Status
  | .completed _ _ => .completed
  | .failed _ => .failed

/-- Outcome of the PDF branch from the final loop state: a loop aborted by a
thrown OCR error yields the failed outcome, a finished loop yields the
completed UPDATE payload; either way the temp-file accounting is carried. -/
def finishPdf : LoopState × Option String → BgOutcome × List String × List String
  | (st, some e) => (.failed e, st.created, st.deleted)
  | (st, none) => (.completed st.resultText st.entries, st.created, st.deleted)

/-- The background IIFE of the upload handler (part_000 lines 82-113), as a
function of the collaborator oracle: the PDF branch rasterizes and OCRs every
page in order, any other extension OCRs the uploaded file once and stores the
raw OCR data as the single result entry; any thrown error is caught and turns
into the failed outcome. Besides the outcome it returns the temp files the run
created and the temp files it deleted. -/
def backgroundRun (jobId fileExt : String) (env : Env) :
    BgOutcome × List String × List String :=
  if fileExt = ".pdf" then
    match env.pdfConvert with
    | .error e => (.failed e, [], [])
    | .ok pages => finishPdf (pdfLoop jobId pages 0 loopStart)
  else
    match env.imageOcr with
    | .error e => (.failed e, [], [])
    | .ok d => (.completed d.text [{ page := none, text := d.text }], [], [])

/-- The terminal UPDATE of the background task (part_000 lines 103-106 and
109-112): the completed case writes status, result_text, result_json and
updated_at; the failed case writes only status and updated_at. -/
def applyOutcome (store : Store) (jobId : String) (o : BgOutcome) (now : Nat) : Store :=
  match o with
  | .completed txt json =>
    updateJob store jobId fun r =>
      { r with status := .completed, result_text := some txt,
               result_json := some json, updatedAt := now }
  | .failed _ =>
    updateJob store jobId fun r => { r with status := .failed, updatedAt := now }

/-- JavaScript `s.trim()`: drop whitespace from both ends. -/
def jsTrim (s : String) : String :=
  String.mk (((s.data.dropWhile Char.isWhitespace).reverse.dropWhile Char.isWhitespace).reverse)

/-- JavaScript `s.substring(0, n)` / `s.slice(0, n)` for n ≥ 0. -/
def jsTake (n : Nat) (s : String) : String :=
  String.mk (s.data.take n)

/-- JavaScript `s.length` (strings modelled as character sequences). -/
def jsLength (s : String) : Nat :=
  s.data.length

/-- JavaScript `s.replace(/\n/g, ' ')`: map every newline to a space. -/
def replaceNewlines (s : String) : String :=
  String.mk (s.data.map fun c => if c = '\n' then ' ' else c)

/-- The alt_text expression of the result handler (part_000 line 140):
first 200 characters, newlines to spaces, with "..." appended exactly when the
text is longer than 200 characters. -/
def altText (t : String) : String :=
  replaceNewlines (jsTake 200 t) ++ (if 200 < jsLength t then "..." else "")

/-- The has_text expression of the result handler (part_000 line 141):
whether the trimmed text is of positive length. -/
def hasText (t : String) : Bool :=
  decide (0 < jsLength (jsTrim t))

/-- The accessibility object of the result body (part_000 lines 139-143). -/
structure Accessibility where
  alt_text : String
  has_text : Bool
  language_detected : String
deriving DecidableEq

/-- The 200 body of GET /api/ocr/result/:id (part_000 lines 133-144).
`data` is JSON.parse of the stored result_json column; a NULL column parses to
null, modelled as `none`. -/
structure ResultBody where
  id : String
  filename : String
  language : String
  text : String
  data : Option (List PageEntry)
  accessibility : Accessibility
deriving DecidableEq

/-- The reply of GET /api/ocr/result/:id: 404 for an unknown id, 400 with an
error body (and nothing else: no pages, no text) when the row's status is not
`completed`, the full body when it is. `crashed` marks the impossible-by
construction case of a completed row with a NULL result_text, where the
handler would throw on `null.substring`. -/
inductive ResultResp where
  | notFound
  | notCompleted
  | crashed
  | ok (body : ResultBody)
deriving DecidableEq

/-- GET /api/ocr/result/:id (part_000 lines 128-145). -/
def getResult (store : Store) (jobId : String) : ResultResp :=
  match findJob store jobId with
  | none => .notFound
  | some j =>
    if j.status ≠ .completed then .notCompleted
    else
      match j.result_text with
      | none => .crashed
      | some t =>
        .ok { id := j.id
              filename := j.filename
              language := j.language
              text := t
              data := j.result_json
              accessibility :=
                { alt_text := altText t
                  has_text := hasText t
                  language_detected := j.language } }

/-- HTTP status code of each result reply (none for the crash case, where no
reply is sent). -/
def respCode : ResultResp → Option Nat
  | .notFound => some 404
  | .notCompleted => some 400
  | .crashed => none
  | .ok _ => some 200

/-- path.basename: the part after the last slash. -/
def basename (p : String) : String :=
  (p.splitOn "/").getLastD p

/-- One rasterized page of the /pdf handler of src/index.js: the rendered
image path and the text its OCR call would recognize. -/
structure RenderedPage where
  image : String
  ocrText : String
deriving DecidableEq

/-- One element of the `pages` array of the /pdf handler's reply
(src/index.js line 188). The image metadata object is opaque collaborator
output and is not modelled. -/
structure PdfPageOut where
  page : Nat
  image : String
  text : String
deriving DecidableEq

/-- The `out` object of the /pdf handler of src/index.js (lines 176-193). -/
structure PdfOut where
  file : String
  pages : List PdfPageOut
  textExtracted : Bool
  text : Option String
  summary : Option String
deriving DecidableEq

/-- The rasterization loop of the /pdf handler (src/index.js lines 184-189):
page numbers 1-based in render order, image names reduced to their basename. -/
def pageOuts : Nat → List RenderedPage → List PdfPageOut
  | _, [] => []
  | i, r :: rs =>
    { page := i + 1, image := basename r.image, text := r.ocrText } :: pageOuts (i + 1) rs

/-- The /pdf handler of src/index.js (lines 171-195), as a function of the
pdf-parse output `parsedText`, the rendered pages with their OCR text, and the
summarizer oracle `llm` (llmSummarize returns the summary or null). The text
layer is used exactly when pdf-parse produced a truthy text whose trimmed
length exceeds 30; only otherwise are pages rasterized and OCRed. -/
def pdfHandler (filename parsedText : String) (rendered : List RenderedPage)
    (llm : String → Option String) : PdfOut :=
  let out : PdfOut :=
    if parsedText ≠ "" ∧ 30 < jsLength (jsTrim parsedText) then
      { file := filename, pages := [], textExtracted := true,
        text := some parsedText, summary := none }
    else
      { file := filename, pages := pageOuts 0 rendered, textExtracted := false,
        text := none, summary := none }
  let combined :=
    jsTake 4000 (match out.text with
      | some t => t
      | none => String.intercalate "\n\n" (out.pages.map PdfPageOut.text))
  { out with
    summary := llm ("Summarize the document in 5 sentences and return keywords:\n\n" ++ combined) }

/-- The statuses the store currently holds for a job id (empty before the row
is inserted, a singleton after). -/
def obs (store : Store) (jobId : String) : List Status :=
  match findJob store jobId with
  | none => []
  | some j => [j.status]

/-- The interleaved executions of the upload handler and its background task
for one job, over the store operations each performs. Indices: the store, the
history of statuses the row has held (extended with the row's status after
each store write), whether the INSERT has run, and whether the terminal UPDATE
has run. The background step is enabled only once the INSERT ran (the IIFE is
invoked after the INSERT resolves) and runs at most once. -/
inductive Reach (req : UploadReq) (f : FileInfo) (jobId : String) (env : Env)
    (t1 t2 : Nat) : Store → List Status → Bool → Bool → Prop where
  | start : Reach req f jobId env t1 t2 [] [] false false
  | submitStep {s : Store} {h : List Status} {d : Bool}
      (hf : req.file = some f)
      (hr : Reach req f jobId env t1 t2 s h false d) :
      Reach req f jobId env t1 t2 (submit s req jobId t1).1
        (h ++ obs (submit s req jobId t1).1 jobId) true d
  | bgStep {s : Store} {h : List Status}
      (hr : Reach req f jobId env t1 t2 s h true false) :
      Reach req f jobId env t1 t2
        (applyOutcome s jobId (backgroundRun jobId (extnameLower f.originalname) env).1 t2)
        (h ++ obs (applyOutcome s jobId
          (backgroundRun jobId (extnameLower f.originalname) env).1 t2) jobId)
        true true

/-! ## Shared helper lemmas and concrete inputs -/

theorem stringData_append (a b : String) : (a ++ b).data = a.data ++ b.data := rfl

theorem stringJoin_append (l₁ l₂ : List String) :
    String.join (l₁ ++ l₂) = String.join l₁ ++ String.join l₂ := by
  apply String.ext
  simp [String.join_eq, stringData_append]

theorem stringJoin_singleton (x : String) : String.join [x] = x := by
  apply String.ext
  simp [String.join_eq]

theorem stringAppend_assoc (a b c : String) : a ++ b ++ c = a ++ (b ++ c) := by
  apply String.ext
  simp [stringData_append]

/-- The text column the PDF loop accumulates is always the join of the pushed
entries' texts, each followed by the blank-line separator. -/
theorem pdfLoop_text_inv (jobId : String) (pages : List (Except String OcrData)) :
    ∀ (i : Nat) (st : LoopState),
      st.resultText = String.join (st.entries.map fun e => PageEntry.text e ++ "\n\n") →
      ((pdfLoop jobId pages i st).1).resultText =
        String.join (((pdfLoop jobId pages i st).1).entries.map
          fun e => PageEntry.text e ++ "\n\n") := by
  induction pages with
  | nil => intro i st h; exact h
  | cons pg rest ih =>
    intro i st h
    cases pg with
    | error e => simpa [pdfLoop] using h
    | ok d =>
      simp only [pdfLoop]
      apply ih
      simp only [List.map_append, List.map_cons, List.map_nil, stringJoin_append, h]
      rw [stringJoin_singleton, stringAppend_assoc]

/-- Patching a row without touching its id commutes with lookup. -/
theorem findJob_updateJob (s : Store) (i : String) (f : JobRecord → JobRecord)
    (hid : ∀ r, (f r).id = r.id) :
    findJob (updateJob s i f) i = (findJob s i).map f := by
  induction s with
  | nil => rfl
  | cons r rs ih =>
    by_cases h : r.id = i
    · simp [updateJob, findJob, h, hid r]
    · simp [updateJob, findJob, h, ih]

/-- The terminal UPDATE writes a terminal status. -/
theorem statusOf_cases (o : BgOutcome) : statusOf o = .completed ∨ statusOf o = .failed := by
  cases o
  · exact Or.inl rfl
  · exact Or.inr rfl

/-- Characterization of the states reachable in the two-task execution of one
job: nothing yet, the inserted `processing` row, or the row after the terminal
UPDATE of the background outcome. -/
theorem reach_char {req : UploadReq} {f : FileInfo} {jobId : String} {env : Env}
    {t1 t2 : Nat} {s : Store} {h : List Status} {ins dn : Bool}
    (hr : Reach req f jobId env t1 t2 s h ins dn) :
    (ins = false ∧ dn = false ∧ s = [] ∧ h = []) ∨
    (ins = true ∧ dn = false ∧ s = [subRec req f jobId t1] ∧ h = [Status.processing]) ∨
    (ins = true ∧ dn = true ∧
      h = [Status.processing,
           statusOf (backgroundRun jobId (extnameLower f.originalname) env).1]) := by
  induction hr with
  | start => exact Or.inl ⟨rfl, rfl, rfl, rfl⟩
  | submitStep hf hr ih =>
    rcases ih with ⟨_, hd, hs, hh⟩ | ⟨hins, _, _, _⟩ | ⟨hins, _, _⟩
    · subst hd hs hh
      refine Or.inr (Or.inl ⟨rfl, rfl, ?_, ?_⟩)
      · simp [submit, hf]
      · simp [submit, hf, obs, findJob, subRec]
    · exact absurd hins (by simp)
    · exact absurd hins (by simp)
  | bgStep hr ih =>
    rcases ih with ⟨hins, _, _, _⟩ | ⟨_, _, hs, hh⟩ | ⟨_, hdn, _⟩
    · exact absurd hins (by simp)
    · subst hs hh
      refine Or.inr (Or.inr ⟨rfl, rfl, ?_⟩)
      generalize (backgroundRun jobId (extnameLower f.originalname) env).1 = o
      cases o with
      | completed txt json =>
        simp [applyOutcome, updateJob, obs, findJob, subRec, statusOf]
      | failed m =>
        simp [applyOutcome, updateJob, obs, findJob, subRec, statusOf]
    · exact absurd hdn (by simp)

/-- A file that the upload handler treats as an image. -/
def pngFile : FileInfo := { originalname := "scan.png", path := "uploads/u1.png" }

/-- A submission carrying that image file and no language field. -/
def pngReq : UploadReq := { file := some pngFile, language := none }

/-- A submission of a file of an unsupported type. -/
def exeReq : UploadReq :=
  { file := some { originalname := "malware.exe", path := "uploads/u2.exe" }, language := none }

/-- Oracle for an image run whose single OCR call recognizes `hello`. -/
def imgEnv : Env :=
  { textLayer := "", pdfConvert := .error "not a pdf", imageOcr := .ok { text := "hello" } }

/-- Oracle for a one-page PDF run with a rich embedded text layer (which the
upload pipeline never consults) whose page OCR recognizes `x`. -/
def pdfLayerEnv : Env :=
  { textLayer := "This document has plenty of embedded text in its text layer."
    pdfConvert := .ok [.ok { text := "x" }]
    imageOcr := .error "not used" }

/-- Oracle for a one-page PDF run whose page OCR recognizes `alpha`. -/
def pdfOneEnv : Env :=
  { textLayer := "", pdfConvert := .ok [.ok { text := "alpha" }], imageOcr := .error "not used" }

/-- Oracle for a two-page PDF run whose page OCRs recognize `a` and `b`. -/
def pdfTwoEnv : Env :=
  { textLayer := ""
    pdfConvert := .ok [.ok { text := "a" }, .ok { text := "b" }]
    imageOcr := .error "not used" }

/-- Oracle for a two-page PDF run where the OCR of page 2 throws. -/
def pdfFailEnv : Env :=
  { textLayer := ""
    pdfConvert := .ok [.ok { text := "alpha" }, .error "ocr crashed on page 2"]
    imageOcr := .error "not used" }

/-- A sufficient pdf-parse text layer for the /pdf handler of src/index.js. -/
def layerText : String := "This document has plenty of embedded text in its text layer."

/-- A completed job row as the background task commits it. -/
def doneRow : JobRecord :=
  { id := "done1", filename := "scan.png", status := .completed, language := "eng",
    result_text := some "hello", result_json := some [{ page := none, text := "hello" }],
    createdAt := 0, updatedAt := 1 }

/-- A job row still in `processing`. -/
def procRow : JobRecord :=
  { id := "run1", filename := "b.pdf", status := .processing, language := "eng",
    result_text := none, result_json := none, createdAt := 0, updatedAt := 0 }

/-- A store holding one completed and one processing job. -/
def wStore : Store := [doneRow, procRow]

/-- The inserted row of a PDF job about to fail. -/
def pdfRow : JobRecord :=
  { id := "job7", filename := "scan.pdf", status := .processing, language := "eng",
    result_text := none, result_json := none, createdAt := 0, updatedAt := 0 }

/-! ## Claims -/

/-- Claim C1: for every job, the sequence of status values the store ever
holds for it is a subsequence of pending, processing, then completed or
failed — no status is skipped backwards or changed after a terminal value,
under every interleaving of the submit handler and its background task. -/
theorem C1_status_monotone {req : UploadReq} {f : FileInfo} {jobId : String} {env : Env}
    {t1 t2 : Nat} {s : Store} {h : List Status} {ins dn : Bool}
    (hr : Reach req f jobId env t1 t2 s h ins dn) :
    h.Sublist [Status.pending, Status.processing, Status.completed] ∨
    h.Sublist [Status.pending, Status.processing, Status.failed] := by
  rcases reach_char hr with ⟨_, _, _, hh⟩ | ⟨_, _, _, hh⟩ | ⟨_, _, hh⟩
  · subst hh; exact Or.inl (List.nil_sublist _)
  · subst hh; exact Or.inl (by decide)
  · subst hh
    rcases statusOf_cases (backgroundRun jobId (extnameLower f.originalname) env).1 with hc | hc
    · rw [hc]; exact Or.inl (by decide)
    · rw [hc]; exact Or.inr (by decide)

/-- Witness for C1: the full image run of a job observes the status history
processing, completed — a subsequence of the canonical chain. -/
theorem C1_witness :
    List.Sublist [Status.processing, Status.completed]
        [Status.pending, Status.processing, Status.completed] ∨
    List.Sublist [Status.processing, Status.completed]
        [Status.pending, Status.processing, Status.failed] := by
  have h0 : Reach pngReq pngFile "job1" imgEnv 0 1 [] [] false false := Reach.start
  have h1 := Reach.submitStep rfl h0
  have h2 := Reach.bgStep h1
  exact C1_status_monotone h2

/-- Claim C2 counterexample: a valid submission is persisted with initial
status `processing`, not `pending`, and the 202 body reports `processing`. -/
theorem C2_counterexample :
    (submit [] pngReq "job1" 0).2 = .accepted "job1" .processing ∧
    (findJob (submit [] pngReq "job1" 0).1 "job1").map JobRecord.status
      = some .processing ∧
    Status.processing ≠ Status.pending := by decide

/-- Claim C2 amended: for every valid submission, submit persists a job
record whose initial status is `processing` and replies 202 with body
jobId and status `processing`, returning before extraction runs (the status
reported in the same call is never `completed`). -/
theorem C2_amended (store : Store) (req : UploadReq) (f : FileInfo) (jobId : String)
    (now : Nat) (hf : req.file = some f) :
    (submit store req jobId now).2 = .accepted jobId .processing ∧
    findJob (submit store req jobId now).1 jobId = some (subRec req f jobId now) ∧
    Status.processing ≠ Status.completed := by
  refine ⟨?_, ?_, by decide⟩
  · simp [submit, hf]
  · simp [submit, hf, findJob, subRec]

/-- Witness for C2 amended, at the concrete image submission. -/
theorem C2_witness :
    (submit [] pngReq "job1" 0).2 = .accepted "job1" .processing ∧
    findJob (submit [] pngReq "job1" 0).1 "job1" = some (subRec pngReq pngFile "job1" 0) ∧
    Status.processing ≠ Status.completed :=
  C2_amended [] pngReq pngFile "job1" 0 rfl

/-- Claim C3 counterexample: a one-page PDF run whose page OCR recognizes
`alpha` completes with aggregated text `alpha` followed by a blank line, which
differs from the plain concatenation of the page texts. -/
theorem C3_counterexample :
    (backgroundRun "job3" ".pdf" pdfOneEnv).1
      = .completed "alpha\n\n" [{ page := some 1, text := "alpha" }] ∧
    "alpha\n\n" ≠ String.join ([{ page := some 1, text := "alpha" }].map PageEntry.text) := by
  decide

/-- Claim C3 amended: for every job that completes via the per-page
(rasterized) PDF path, the stored aggregated text equals the concatenation of
the stored page texts in page order, each followed by the blank-line separator
written after every page; when the text-layer path of the /pdf handler is
taken, the reply text equals the text-layer output. -/
theorem C3_amended :
    (∀ jobId env txt entries cr dl,
        backgroundRun jobId ".pdf" env = (.completed txt entries, cr, dl) →
        txt = String.join (entries.map fun e => PageEntry.text e ++ "\n\n")) ∧
    (∀ fn parsed rendered llm, parsed ≠ "" → 30 < jsLength (jsTrim parsed) →
        (pdfHandler fn parsed rendered llm).text = some parsed) := by
  constructor
  · intro jobId env txt entries cr dl hrun
    obtain ⟨pc, hpc⟩ : ∃ pc, env.pdfConvert = pc := ⟨_, rfl⟩
    cases pc with
    | error e =>
      have hbg : backgroundRun jobId ".pdf" env = (.failed e, [], []) := by
        unfold backgroundRun
        rw [if_pos rfl, hpc]
      rw [hbg] at hrun
      exact absurd hrun (by simp)
    | ok pages =>
      obtain ⟨st, err, hl⟩ : ∃ st err, pdfLoop jobId pages 0 loopStart = (st, err) :=
        ⟨_, _, rfl⟩
      have hinv := pdfLoop_text_inv jobId pages 0 loopStart rfl
      rw [hl] at hinv
      have hbg : backgroundRun jobId ".pdf" env = finishPdf (st, err) := by
        unfold backgroundRun
        rw [if_pos rfl, hpc]
        show finishPdf (pdfLoop jobId pages 0 loopStart) = finishPdf (st, err)
        rw [hl]
      cases err with
      | some e =>
        rw [hbg] at hrun
        simp only [finishPdf] at hrun
        exact absurd hrun (by simp)
      | none =>
        rw [hbg] at hrun
        simp only [finishPdf] at hrun
        simp only [Prod.mk.injEq, BgOutcome.completed.injEq] at hrun
        rw [← hrun.1.1, ← hrun.1.2]
        exact hinv
  · intro fn parsed rendered llm h1 h2
    simp [pdfHandler, h1, h2]

/-- Witness for C3 amended: the two-page PDF run and the sufficient
text-layer document. -/
theorem C3_witness :
    "a\n\nb\n\n" = String.join
      (([{ page := some 1, text := "a" }, { page := some 2, text := "b" }] : List PageEntry).map
        fun e => PageEntry.text e ++ "\n\n") ∧
    (pdfHandler "d.pdf" layerText [] fun _ => none).text = some layerText := by
  constructor
  · exact C3_amended.1 "job3" pdfTwoEnv "a\n\nb\n\n"
      [{ page := some 1, text := "a" }, { page := some 2, text := "b" }]
      [tempName "job3" 0, tempName "job3" 1] [tempName "job3" 0, tempName "job3" 1]
      (by decide)
  · exact C3_amended.2 "d.pdf" layerText [] (fun _ => none) (by decide) (by decide)

/-- Claim C4 counterexample: a PDF submission through the upload pipeline with
a rich, sufficient embedded text layer is still rasterized and OCRed per page:
the job completes with a per-page breakdown and the aggregated text is the OCR
output, not the text-layer text. -/
theorem C4_counterexample :
    30 < jsLength (jsTrim pdfLayerEnv.textLayer) ∧
    (backgroundRun "job4" ".pdf" pdfLayerEnv).1
      = .completed "x\n\n" [{ page := some 1, text := "x" }] ∧
    ([{ page := some 1, text := "x" }] : List PageEntry) ≠ [] ∧
    "x\n\n" ≠ pdfLayerEnv.textLayer := by decide

/-- Claim C4 amended: the upload pipeline never attempts the embedded text
layer — its result is independent of what the text layer would yield, and
PDFs are always rasterized and OCRed per page; only the standalone /pdf
handler of src/index.js attempts the text layer first, uses it exactly when
the parse output is nonempty with trimmed length above 30, and rasterizes
plus OCRs per page only otherwise. -/
theorem C4_amended :
    (∀ jobId ext env layer,
        backgroundRun jobId ext { env with textLayer := layer }
          = backgroundRun jobId ext env) ∧
    (∀ fn parsed rendered llm,
      (parsed ≠ "" ∧ 30 < jsLength (jsTrim parsed) →
        (pdfHandler fn parsed rendered llm).textExtracted = true ∧
        (pdfHandler fn parsed rendered llm).text = some parsed ∧
        (pdfHandler fn parsed rendered llm).pages = []) ∧
      (¬(parsed ≠ "" ∧ 30 < jsLength (jsTrim parsed)) →
        (pdfHandler fn parsed rendered llm).textExtracted = false ∧
        (pdfHandler fn parsed rendered llm).text = none ∧
        (pdfHandler fn parsed rendered llm).pages = pageOuts 0 rendered)) := by
  refine ⟨fun jobId ext env layer => rfl, fun fn parsed rendered llm => ⟨?_, ?_⟩⟩
  · intro h; refine ⟨?_, ?_, ?_⟩ <;> simp [pdfHandler, h.1, h.2]
  · intro h; refine ⟨?_, ?_, ?_⟩ <;> simp [pdfHandler, h]

/-- Witness for C4 amended: text-layer independence at the one-page PDF run,
and the sufficient text layer taking the no-rasterization branch. -/
theorem C4_witness :
    backgroundRun "job4" ".pdf" { pdfOneEnv with textLayer := "zzz" }
      = backgroundRun "job4" ".pdf" pdfOneEnv ∧
    (pdfHandler "d.pdf" layerText [] fun _ => none).pages = [] :=
  ⟨C4_amended.1 "job4" ".pdf" pdfOneEnv "zzz",
   ((C4_amended.2 "d.pdf" layerText [] fun _ => none).1 ⟨by decide, by decide⟩).2.2⟩

/-- Claim C5: get-result replies 404 when no such job exists; whenever the
job's status is anything other than `completed` — including `failed` — it
replies 400 with a bare error body exposing no pages and no text; and it
returns the full result exactly when the status is `completed` (with the
result columns the completed transition always writes). -/
theorem C5_getResult (store : Store) (jobId : String) :
    (findJob store jobId = none →
      getResult store jobId = .notFound ∧
      respCode (getResult store jobId) = some 404) ∧
    (∀ j, findJob store jobId = some j → j.status ≠ .completed →
      getResult store jobId = .notCompleted ∧
      respCode (getResult store jobId) = some 400) ∧
    (∀ j t, findJob store jobId = some j → j.status = .completed →
      j.result_text = some t →
      getResult store jobId
        = .ok { id := j.id, filename := j.filename, language := j.language,
                text := t, data := j.result_json,
                accessibility := { alt_text := altText t, has_text := hasText t,
                                   language_detected := j.language } } ∧
      respCode (getResult store jobId) = some 200) := by
  refine ⟨?_, ?_, ?_⟩
  · intro h; simp [getResult, h, respCode]
  · intro j hj hst; simp [getResult, hj, hst, respCode]
  · intro j t hj hst ht; simp [getResult, hj, hst, ht, respCode]

/-- Witness for C5: the three branches at a concrete store holding one
completed and one processing job. -/
theorem C5_witness :
    getResult wStore "nope" = .notFound ∧
    getResult wStore "run1" = .notCompleted ∧
    getResult wStore "done1"
      = .ok { id := "done1", filename := "scan.png", language := "eng",
              text := "hello", data := some [{ page := none, text := "hello" }],
              accessibility := { alt_text := altText "hello", has_text := hasText "hello",
                                 language_detected := "eng" } } :=
  ⟨((C5_getResult wStore "nope").1 (by decide)).1,
   ((C5_getResult wStore "run1").2.1 procRow (by decide) (by decide)).1,
   ((C5_getResult wStore "done1").2.2 doneRow "hello" (by decide) rfl rfl).1⟩

/-- Claim C6 counterexample: a submission of an `.exe` file is not rejected —
the handler replies 202 and a job record is created in the store. -/
theorem C6_counterexample :
    extnameLower "malware.exe" = ".exe" ∧
    (submit [] exeReq "job6" 0).2 = .accepted "job6" .processing ∧
    findJob (submit [] exeReq "job6" 0).1 "job6" ≠ none := by decide

/-- Claim C6 amended: submit rejects with 400 only when no file was uploaded
(leaving the store unchanged); a submission carrying any file, of any type,
is accepted with 202 and a job record is created — unsupported types surface
only later, as an asynchronous OCR failure. -/
theorem C6_amended (store : Store) (req : UploadReq) (jobId : String) (now : Nat) :
    (∀ f, req.file = some f →
      (submit store req jobId now).2 = .accepted jobId .processing ∧
      findJob (submit store req jobId now).1 jobId = some (subRec req f jobId now)) ∧
    (req.file = none →
      submit store req jobId now = (store, .badRequest "No file uploaded")) := by
  constructor
  · intro f hf
    constructor
    · simp [submit, hf]
    · simp [submit, hf, findJob, subRec]
  · intro hf
    simp [submit, hf]

/-- Witness for C6 amended: the `.exe` submission is accepted, the fileless
submission is rejected. -/
theorem C6_witness :
    (submit [] exeReq "job6" 0).2 = .accepted "job6" .processing ∧
    submit [] { file := none, language := none } "j0" 0
      = ([], .badRequest "No file uploaded") :=
  ⟨(((C6_amended [] exeReq "job6" 0).1
      { originalname := "malware.exe", path := "uploads/u2.exe" }) rfl).1,
   (C6_amended [] { file := none, language := none } "j0" 0).2 rfl⟩

/-- Claim C7 counterexample: a background run failing with a collaborator
error message ends the job `failed`, but no reason string is recorded — the
final record is the inserted row with only status and updated_at changed, and
the error message appears in none of its fields. -/
theorem C7_counterexample :
    (backgroundRun "job7" ".pdf" pdfFailEnv).1 = .failed "ocr crashed on page 2" ∧
    findJob (applyOutcome [pdfRow] "job7" (backgroundRun "job7" ".pdf" pdfFailEnv).1 5) "job7"
      = some { id := "job7", filename := "scan.pdf", status := .failed, language := "eng",
               result_text := none, result_json := none, createdAt := 0, updatedAt := 5 } := by
  decide

/-- Claim C7 amended: whenever the background execution raises any
collaborator error, the failed UPDATE leaves the job in status `failed`
(never `processing`), changing nothing of the record but the status and the
updated_at timestamp — in particular no error reason string is recorded
anywhere on the job record, whose schema has no field for one. -/
theorem C7_amended (store : Store) (jobId : String) (r : JobRecord) (e : String)
    (now : Nat) (hfind : findJob store jobId = some r) :
    findJob (applyOutcome store jobId (.failed e) now) jobId
      = some { r with status := .failed, updatedAt := now } ∧
    Status.failed ≠ Status.processing := by
  constructor
  · have h := findJob_updateJob store jobId
      (fun rr => { rr with status := .failed, updatedAt := now }) (fun rr => rfl)
    simp only [applyOutcome]
    rw [h, hfind]
    rfl
  · decide

/-- Witness for C7 amended, at the concrete processing row. -/
theorem C7_witness :
    findJob (applyOutcome [procRow] "run1" (.failed "boom") 7) "run1"
      = some { procRow with status := .failed, updatedAt := 7 } ∧
    Status.failed ≠ Status.processing :=
  C7_amended [procRow] "run1" procRow "boom" 7 (by decide)

/-- Claim C8 counterexample: a completed single-image job stores exactly one
result entry, but that entry is the raw OCR data with no page number — its
page field is absent rather than equal to 1. -/
theorem C8_counterexample :
    (backgroundRun "job8" ".png" imgEnv).1
      = .completed "hello" [{ page := none, text := "hello" }] ∧
    PageEntry.page { page := none, text := "hello" } ≠ some 1 := by decide

/-- Claim C8 amended: every single-image submission that completes stores
exactly one result entry whose text equals the aggregated text, but the entry
carries no pageNumber field (the raw OCR data is stored without a page
number). -/
theorem C8_amended (jobId ext : String) (env : Env) (d : OcrData)
    (hext : ¬ ext = ".pdf") (hocr : env.imageOcr = .ok d) :
    (backgroundRun jobId ext env).1
      = .completed d.text [{ page := none, text := d.text }] ∧
    List.length [({ page := none, text := d.text } : PageEntry)] = 1 ∧
    PageEntry.page { page := none, text := d.text } = none := by
  refine ⟨?_, rfl, rfl⟩
  simp [backgroundRun, hext, hocr]

/-- Witness for C8 amended, at the concrete image run recognizing `hello`. -/
theorem C8_witness :
    (backgroundRun "job8" ".png" imgEnv).1
      = .completed "hello" [{ page := none, text := "hello" }] ∧
    List.length [({ page := none, text := "hello" } : PageEntry)] = 1 ∧
    PageEntry.page { page := none, text := "hello" } = none :=
  C8_amended "job8" ".png" imgEnv { text := "hello" } (by decide) rfl

/-- Claim C9: the claim is right and the code is wrong — on the two-page PDF
run whose page-2 OCR throws, the executor has created the temp images of both
pages but deleted only that of page 1: the temp file of page 2 is left behind
on the failure path. -/
theorem C9_temp_leak :
    backgroundRun "job9" ".pdf" pdfFailEnv
      = (.failed "ocr crashed on page 2",
         [tempName "job9" 0, tempName "job9" 1],
         [tempName "job9" 0]) ∧
    tempName "job9" 1 ∈ (backgroundRun "job9" ".pdf" pdfFailEnv).2.1 ∧
    tempName "job9" 1 ∉ (backgroundRun "job9" ".pdf" pdfFailEnv).2.2 := by decide

/-- Claim C10: for every completed job, get-result returns an accessibility
object whose alt_text is the first 200 characters of the stored text with
every newline replaced by a space, with an ellipsis appended exactly when the
stored text is longer than 200 characters, and whose has_text is true exactly
when the stored text is non-empty after trimming whitespace. -/
theorem C10_accessibility (store : Store) (jobId : String) (j : JobRecord) (t : String)
    (hj : findJob store jobId = some j) (hst : j.status = .completed)
    (ht : j.result_text = some t) :
    ∃ b, getResult store jobId = .ok b ∧
      b.accessibility.alt_text.data
        = ((t.data.take 200).map fun c => if c = '\n' then ' ' else c)
          ++ (if 200 < t.data.length then ['.', '.', '.'] else []) ∧
      (b.accessibility.has_text = true ↔ jsTrim t ≠ "") := by
  refine ⟨{ id := j.id, filename := j.filename, language := j.language, text := t,
            data := j.result_json,
            accessibility := { alt_text := altText t, has_text := hasText t,
                               language_detected := j.language } }, ?_, ?_, ?_⟩
  · simp [getResult, hj, hst, ht]
  · show (altText t).data = _
    simp only [altText, stringData_append, replaceNewlines, jsTake, jsLength]
    by_cases h : 200 < t.data.length
    · rw [if_pos h, if_pos h]
    · rw [if_neg h, if_neg h]
  · show hasText t = true ↔ jsTrim t ≠ ""
    simp only [hasText, jsLength, decide_eq_true_eq]
    rw [List.length_pos]
    constructor
    · intro hd he
      exact hd (congrArg String.data he)
    · intro hs hd
      exact hs (String.ext hd)

/-- Witness for C10, at the completed `hello` job of the concrete store. -/
theorem C10_witness :
    ∃ b, getResult wStore "done1" = .ok b ∧
      b.accessibility.alt_text.data
        = ((("hello" : String).data.take 200).map fun c => if c = '\n' then ' ' else c)
          ++ (if 200 < ("hello" : String).data.length then ['.', '.', '.'] else []) ∧
      (b.accessibility.has_text = true ↔ jsTrim "hello" ≠ "") :=
  C10_accessibility wStore "done1" doneRow "hello" (by decide) rfl rfl

end OcrApi
